import Mathlib

/-!
Verification development for the autosynth coordination layer of
`sccl/autosynth/__init__.py`.

The Python module is embedded shallowly:
  * the process environment is a function `String → Option String`;
  * the argument vector is a `List String`;
  * fallible Python code is embedded as `Except`-valued functions, with an
    inductive `PyErr` naming the exception class that Python would raise;
  * the two regular expressions of `_is_one_host_ib_dgx1` are embedded by a
    backtracking matcher over `List Char` that mirrors Python `re` semantics
    (greedy repetition, leftmost non-overlapping `findall`, `re.MULTILINE`
    anchors, `\s` matching newline);
  * external collaborators that live outside this file's source
    (`nvlink_only`, the `mpi4py` communicator, `DGX1RelayNodePlan`'s
    synthesis behaviour) are abstracted as parameters or plain records.

ASCII restriction: the character classes for `\d` and `\s` are modelled on
ASCII characters, which covers the report text the module parses.
-/

namespace Sccl

/-! ### Character classes and Python `int` parsing -/

/-- ASCII decimal digit, the relevant fragment of Python regex `\d`. -/
def isDig (c : Char) : Bool := '0' ≤ c && c ≤ '9'

/-- ASCII whitespace, the relevant fragment of Python regex `\s` and of the
whitespace stripped by Python `int`. -/
def isPySpace (c : Char) : Bool :=
  c == ' ' || c == '\t' || c == '\n' || c == '\r' || c == '\x0b' || c == '\x0c'

/-- Digits to a natural number, most significant first. -/
def digitsToNat (ds : List Char) : Nat :=
  ds.foldl (fun a c => a * 10 + (c.toNat - 48)) 0

/-- The digit-run body of Python `int(s)` after sign handling: nonempty and
all digits. (Underscore digit separators are not modelled.) -/
def pyIntBody (ds : List Char) : Option Int :=
  if ds.isEmpty then none
  else if ds.all isDig then some (digitsToNat ds) else none

/-- Python `int(s)` on a string: strip whitespace, optional sign, digits;
`none` models the `ValueError` raise. -/
def pyInt (s : String) : Option Int :=
  let cs := ((s.data.dropWhile isPySpace).reverse.dropWhile isPySpace).reverse
  match cs with
  | '-' :: ds => (pyIntBody ds).map (fun n => -n)
  | '+' :: ds => pyIntBody ds
  | ds => pyIntBody ds

/-! ### Launch-context detection (`init`, lines 9-36) -/

/-- The launch-context triple computed by the detection phase of `init`:
`has_subprocesses`, `world_size` (`None` in the pure-MPI branch) and
`is_mpi_process` (the coordinator flag). -/
structure LaunchCtx where
  has_subprocesses : Bool
  world_size : Option Int
  is_mpi_process : Bool
deriving DecidableEq, Repr

/-- Python exception classes that the detection phase can raise. -/
inductive PyErr where
  /-- `KeyError` from `os.environ[k]` on a missing key. -/
  | keyError (k : String)
  /-- `ValueError` from `int()` on an unparseable string. -/
  | valueError
  /-- `AttributeError`: `parse_known_args()` returns a `(namespace, rest)`
  tuple, and `args.local_rank` is attribute access on that tuple. -/
  | attributeError
  /-- `SystemExit` raised by argparse on an invalid value for a recognised
  option. -/
  | systemExit
deriving DecidableEq, Repr

/-- Value of a `--local_rank=V` token, if the token has that shape. -/
def localRankEqValue (cs : List Char) : Option (List Char) :=
  match cs with
  | '-' :: '-' :: 'l' :: 'o' :: 'c' :: 'a' :: 'l' :: '_' :: 'r' :: 'a' :: 'n' :: 'k' :: '=' :: v =>
    some v
  | _ => none

/-- Whether `parser.parse_known_args()` errors out (raising `SystemExit`)
on this argument vector: a `--local_rank` option whose value is missing or
not a valid integer. (Argparse prefix abbreviations are not modelled.) -/
def argparseLocalRankBad : List String → Bool
  | [] => false
  | a :: rest =>
    if a == "--local_rank" then
      match rest with
      | [] => true
      | v :: rest2 => if (pyInt v).isNone then true else argparseLocalRankBad rest2
    else
      match localRankEqValue a.data with
      | some v => if (pyInt (String.mk v)).isNone then true else argparseLocalRankBad rest
      | none => argparseLocalRankBad rest

/-- The detection phase of `init` (lines 9-36 of the source), as a function
of the process environment and argument vector.  Log lines are omitted: they
do not affect the returned data.

When `LOCAL_RANK` is absent the source runs
`args = parser.parse_known_args()` and then reads `args.local_rank`;
`parse_known_args` returns a `(namespace, rest)` tuple, so the read raises
`AttributeError` (unless argparse itself already raised `SystemExit` on an
invalid `--local_rank` value). -/
def detectLaunch (env : String → Option String) (argv : List String) :
    Except PyErr LaunchCtx :=
  match env "LOCAL_RANK" with
  | some lr =>
    match env "WORLD_SIZE" with
    | none => Except.error (PyErr.keyError "WORLD_SIZE")
    | some ws =>
      match pyInt ws with
      | none => Except.error PyErr.valueError
      | some w =>
        match pyInt lr with
        | none => Except.error PyErr.valueError
        | some l => Except.ok (LaunchCtx.mk true (some w) (l = 0))
  | none =>
    if argparseLocalRankBad argv then Except.error PyErr.systemExit
    else Except.error PyErr.attributeError

/-- Environment carrying only the elastic-launcher variables. -/
def envElastic (lr ws : String) : String → Option String :=
  fun k => if k == "LOCAL_RANK" then some lr else if k == "WORLD_SIZE" then some ws else none

/-- Empty process environment. -/
def envBare : String → Option String := fun _ => none

example : detectLaunch (envElastic "0" "4") [] = Except.ok (LaunchCtx.mk true (some 4) true) := rfl
example : detectLaunch (envElastic "1" "4") [] = Except.ok (LaunchCtx.mk true (some 4) false) := rfl
example : detectLaunch envBare [] = Except.error PyErr.attributeError := rfl
example : detectLaunch envBare ["--local_rank", "3"] = Except.error PyErr.attributeError := rfl
example : detectLaunch envBare ["--local_rank", "foo"] = Except.error PyErr.systemExit := rfl
example : detectLaunch envBare ["--local_rank=oops"] = Except.error PyErr.systemExit := rfl

/-! ### Regex machinery for `_is_one_host_ib_dgx1` (lines 152-155)

The source evaluates
  `re.findall('^mlx\d_\d(?:\s+NODE)*\s+X(?:\s+NODE)*\s+$', smi_topo, re.MULTILINE)`
and
  `re.findall('^mlx\d_\d.*$', smi_topo, re.MULTILINE)`.
A parser here maps a suffix of the text to the list of possible remainders
in Python's backtracking preference order (greedy repetition first); the
first remainder satisfying the `$` anchor gives the match Python finds. -/

/-- Nondeterministic matcher: possible remainders in preference order. -/
def RegexParser : Type := List Char → List (List Char)

/-- Sequencing of matchers, preserving preference order. -/
def pseq (p q : RegexParser) : RegexParser := fun s => (p s).flatMap q

/-- Literal character. -/
def pch (c : Char) : RegexParser := fun s =>
  match s with
  | d :: rest => if d == c then [rest] else []
  | [] => []

/-- Single character of a class. -/
def pcls (f : Char → Bool) : RegexParser := fun s =>
  match s with
  | d :: rest => if f d then [rest] else []
  | [] => []

/-- Literal string. -/
def plit (cs : List Char) : RegexParser := fun s =>
  if cs.isPrefixOf s then [s.drop cs.length] else []

/-- Greedy `c+` over a character class: longest run first, down to one. -/
def pplusCls (f : Char → Bool) : RegexParser := fun s =>
  let n := (s.takeWhile f).length
  (List.range n).map (fun i => s.drop (n - i))

/-- Greedy `(?:p)*`: more iterations preferred, fuel-bounded (each `p`
iteration below consumes at least one character, so fuel = text length
suffices). -/
def pstar (p : RegexParser) : Nat → RegexParser
  | 0 => fun s => [s]
  | fuel + 1 => fun s => ((p s).flatMap (pstar p fuel)) ++ [s]

/-- The `\s+NODE` group. -/
def spNODE : RegexParser := pseq (pplusCls isPySpace) (plit ['N', 'O', 'D', 'E'])

/-- Body of `mlx\d_\d(?:\s+NODE)*\s+X(?:\s+NODE)*\s+` (the `^`/`$` anchors
are handled by the scanning driver). -/
def hostCore (fuel : Nat) : RegexParser :=
  pseq (plit ['m', 'l', 'x'])
    (pseq (pcls isDig)
      (pseq (pch '_')
        (pseq (pcls isDig)
          (pseq (pstar spNODE fuel)
            (pseq (pplusCls isPySpace)
              (pseq (pch 'X')
                (pseq (pstar spNODE fuel) (pplusCls isPySpace))))))))

/-- `re.MULTILINE` end anchor `$`: end of text or just before a newline. -/
def atEol : List Char → Bool
  | [] => true
  | c :: _ => c == '\n'

/-- Length of the host-pattern match starting at this position (which the
driver guarantees is a line start), or `none`: the first remainder in
backtracking preference order that satisfies the `$` anchor. -/
def matchHost (s : List Char) : Option Nat :=
  match (hostCore s.length s).filter atEol with
  | [] => none
  | r :: _ => some (s.length - r.length)

/-- Whether the last character consumed by a match of length `n` is a
newline (decides whether the scan resumes at a line start). -/
def lastConsumedNl (s : List Char) (n : Nat) : Bool :=
  match s.drop (n - 1) with
  | '\n' :: _ => true
  | _ => false

/-- Leftmost non-overlapping scan counting host-pattern matches, with a
beginning-of-line flag for the `^` anchor.  Each step consumes at least one
character, so fuel = text length suffices. -/
def scanHost : Nat → List Char → Bool → Nat
  | 0, _, _ => 0
  | fuel + 1, s, bol =>
    match s with
    | [] => 0
    | c :: rest =>
      if bol then
        match matchHost s with
        | some n =>
          if n = 0 then scanHost fuel rest (c == '\n')
          else 1 + scanHost fuel (s.drop n) (lastConsumedNl s n)
        | none => scanHost fuel rest (c == '\n')
      else scanHost fuel rest (c == '\n')

/-- `len(re.findall(host_pattern, s, re.MULTILINE))`. -/
def countHost (s : List Char) : Nat := scanHost s.length s true

/-- Split on newlines (`\n` separators, as Python `^` line starts see them). -/
def splitLines (s : List Char) : List (List Char) :=
  match s with
  | [] => [[]]
  | '\n' :: rest => [] :: splitLines rest
  | c :: rest =>
    match splitLines rest with
    | l :: ls => (c :: l) :: ls
    | [] => [[c]]

/-- Whether a line matches `^mlx\d_\d.*$` (`.` excludes newline, so within a
single line the trailing `.*$` always matches). -/
def isAnyIbLine (l : List Char) : Bool :=
  match l with
  | 'm' :: 'l' :: 'x' :: d1 :: '_' :: d2 :: _ => isDig d1 && isDig d2
  | _ => false

/-- `len(re.findall('^mlx\d_\d.*$', s, re.MULTILINE))`: one match per
`mlx`-prefixed line. -/
def countAny (s : List Char) : Nat := ((splitLines s).filter isAnyIbLine).length

/-- `_is_one_host_ib_dgx1` (lines 152-155): both counts must equal one. -/
def is_one_host_ib_dgx1 (smi_topo : List Char) : Bool :=
  (countHost smi_topo == 1) && (countAny smi_topo == 1)

example : countHost "mlx5_0  NODE  X  \nmlx4_1  PHB".data = 1 := by decide
example : countAny "mlx5_0  NODE  X  \nmlx4_1  PHB".data = 2 := by decide
example : is_one_host_ib_dgx1 "mlx5_0  NODE  X \n".data = true := by decide
example : is_one_host_ib_dgx1 "mlx5_0 NODE X".data = false := by decide

/-! ### Machine detection (`detect_machine`, `_detect_nvidia_machine`) -/

/-- Modelled from the spec: the "link-adjacency model restricted to
high-speed intra-node links" that `nvlink_only` (in `sccl.topologies.nvidia`,
outside this file's source) parses from the report; the detection code only
consults its `num_nodes()`. -/
structure TopoModel where
  num_nodes : Nat
deriving DecidableEq, Repr

/-- Outcome of `subprocess.check_output(['nvidia-smi', 'topo', '-m'])`. -/
inductive ToolResult where
  /-- `FileNotFoundError`: the tool is not installed. -/
  | notFound
  /-- `subprocess.CalledProcessError`: the tool ran but exited nonzero. -/
  | callError
  /-- The decoded standard output of a successful run. -/
  | output (s : List Char)
deriving DecidableEq, Repr

/-- `_detect_nvidia_machine` (lines 125-150), parameterised by the external
`nvlink_only` parser (represented by the topology model it returns).  Log
lines are omitted: they do not affect the returned data. -/
def detect_nvidia_machine (nv : List Char → TopoModel) (tool : ToolResult) :
    Option (String × Option TopoModel) :=
  match tool with
  | ToolResult.notFound => none
  | ToolResult.callError => some ("unknown", none)
  | ToolResult.output s =>
    let nvlink_topo := nv s
    if nvlink_topo.num_nodes = 8 then
      if is_one_host_ib_dgx1 s then some ("one_host_ib_dgx1", some nvlink_topo)
      else some ("unknown", none)
    else some ("unknown", none)

/-- `detect_machine` (lines 120-124). -/
def detect_machine (nv : List Char → TopoModel) (tool : ToolResult) :
    String × Option TopoModel :=
  match detect_nvidia_machine nv tool with
  | some machine => machine
  | none => ("unknown", none)

/-! ### Plan selection (`select_synthesis_plan`, lines 157-162) -/

/-- The DGX-1 relay-node plan object; its synthesis behaviour lives outside
this file's source, so only the constructor applied to the topology model is
embedded. -/
structure DGX1RelayNodePlan where
  topo : Option TopoModel
deriving DecidableEq, Repr

/-- `select_synthesis_plan`: the registered archetype yields the plan, every
other archetype raises `RuntimeError` naming the machine type. -/
def select_synthesis_plan (machine : String × Option TopoModel) :
    Except String DGX1RelayNodePlan :=
  if machine.1 = "one_host_ib_dgx1" then Except.ok (DGX1RelayNodePlan.mk machine.2)
  else Except.error ("Unhandled machine type " ++ machine.1 ++ ".")

/-! ### Cross-rank consistency check (`_autosynth_and_get_env`, lines 87-91) -/

/-- The heterogeneity error message raised at adjacent ranks `i`, `i+1`. -/
def mismatchMsg (i : Nat) (a b : String) : String :=
  "Rank " ++ toString i ++ " detected machine as " ++ a ++ " but rank " ++
    toString (i + 1) ++ " detected machine as " ++ b ++ "."

/-- The `for i in range(len(names) - 1)` loop, carrying the rank of the list
head. -/
def checkNamesAux (i : Nat) : List String → Except String Unit
  | a :: b :: rest =>
    if a = b then checkNamesAux (i + 1) (b :: rest)
    else Except.error (mismatchMsg i a b)
  | _ => Except.ok ()

/-- The coordinator's consistency check over the gathered archetype names. -/
def checkNames (names : List String) : Except String Unit := checkNamesAux 0 names

example : checkNames ["A", "A", "A"] = Except.ok () := rfl
example : checkNames ["A", "B", "A"] = Except.error (mismatchMsg 0 "A" "B") := rfl
example : checkNames [] = Except.ok () := rfl

/-! ### Environment bundle and its application (`_autosynth_and_get_env`
lines 113-118, `init` line 65) -/

/-- A flat key-value bundle, as dumped to / loaded from the lock file. -/
abbrev EnvBundle := List (String × String)

/-- Dictionary lookup in a bundle; a later entry for the same key wins, as
in a Python dict literal. -/
def bundleGet : EnvBundle → String → Option String
  | [], _ => none
  | (k, v) :: rest, key =>
    match bundleGet rest key with
    | some v2 => some v2
    | none => if k == key then some v else none

/-- `os.environ.update(env)`: bundle keys overwrite, all others unchanged. -/
def os_environ_update (env : String → Option String) (b : EnvBundle) :
    String → Option String :=
  fun k =>
    match bundleGet b k with
    | some v => some v
    | none => env k

/-- The bundle returned by `_autosynth_and_get_env` (lines 115-118): the
artifact path and the comma-joined device permutation. -/
def autosynth_env (xml_file : String) (perm : List Nat) : EnvBundle :=
  [("SCCL_XML_FILE", xml_file),
   ("CUDA_VISIBLE_DEVICES", String.intercalate "," (perm.map toString))]

/-! ### Lock-file publish step (`init`, lines 43-51) -/

/-- The deterministic lock-file path
`os.path.join(tempfile.gettempdir(), 'sccl_autosynth_env.<ppid>.lock')`
(the temp directory is assumed not to end in a separator). -/
def env_file (tmpdir : String) (ppid : Nat) : String :=
  tmpdir ++ "/sccl_autosynth_env." ++ toString ppid ++ ".lock"

/-- The filesystem and process state the publish step touches. -/
structure FsState where
  /-- `os.path.exists(env_file)`. -/
  lockExists : Bool
  /-- Contents of the lock file, when written. -/
  lockContents : Option EnvBundle
  /-- Whether `atexit.register(os.remove, env_file)` has run. -/
  cleanupRegistered : Bool
deriving DecidableEq, Repr

/-- The coordinator's publish step when subprocess siblings exist: the
existence check, then the write and cleanup registration (lines 43-51). -/
def coordinatorPublish (st : FsState) (file : String) (env : EnvBundle) :
    Except String FsState :=
  if st.lockExists then
    Except.error ("SCCL: Lock file already exists: " ++ file)
  else
    Except.ok (FsState.mk true (some env) true)

/-! ### Sibling wait loop (`init`, lines 52-63) -/

/-- The sibling wait loop over a time-indexed view of the lock file
(`fs t` is the file's contents at the `t`-th poll, `none` while absent):
check, sleep one second, bump `elapsed`, warn once when `elapsed` hits 10
with logging on.  Returns (polls slept through, warnings printed, bundle
read).  The loop has no timeout, so it is fuel-indexed; the theorems show
fuel beyond the file's appearance time is irrelevant and that no fuel
suffices when the file never appears. -/
def siblingWait (fs : Nat → Option EnvBundle) (logging : Bool) :
    Nat → Nat → Nat → Option (Nat × Nat × EnvBundle)
  | 0, _, _ => none
  | fuel + 1, t, w =>
    match fs t with
    | some env => some (t, w, env)
    | none =>
      siblingWait fs logging fuel (t + 1)
        (if (t + 1 == 10) && logging then w + 1 else w)

/-! ### Concrete inputs used by witnesses and counterexamples -/

/-- A parser reporting an 8-unit intra-node graph for every report. -/
def nvEight : List Char → TopoModel := fun _ => TopoModel.mk 8

/-- A report with one line matching the host-local pattern plus a second
cross-node interface line that does not. -/
def cexReport : List Char := "mlx5_0  NODE  X  \nmlx4_1  PHB".data

/-- A process environment binding every variable to `"p"`. -/
def envC : String → Option String := fun _ => some "p"

/-- A lock-file history where the file appears at the 12th poll. -/
def fsAppears12 : Nat → Option EnvBundle :=
  fun k => if k == 12 then some [("SCCL_XML_FILE", "algo.xml")] else none

/-! ### Helper lemmas -/

/-- `_is_one_host_ib_dgx1` holds exactly when both findall counts are one. -/
lemma is_one_host_iff (r : List Char) :
    is_one_host_ib_dgx1 r = true ↔ countHost r = 1 ∧ countAny r = 1 := by
  simp [is_one_host_ib_dgx1]

/-- Closed form of machine detection on a successful tool run. -/
lemma detect_machine_output (nv : List Char → TopoModel) (r : List Char) :
    detect_machine nv (ToolResult.output r) =
      if (nv r).num_nodes = 8 ∧ is_one_host_ib_dgx1 r = true then
        ("one_host_ib_dgx1", some (nv r))
      else ("unknown", none) := by
  by_cases h8 : (nv r).num_nodes = 8 <;>
    by_cases hib : is_one_host_ib_dgx1 r = true <;>
      simp [detect_machine, detect_nvidia_machine, h8, hib]

/-! ### Claims -/

/-- C1: the elastic branch of `init`'s launch detection behaves as claimed
(`has_subprocesses` true, world size from `WORLD_SIZE`, coordinator iff
`LOCAL_RANK` is zero), but the legacy-flag and bare branches are unreachable:
`parse_known_args()` returns a `(namespace, rest)` tuple, so reading
`args.local_rank` raises `AttributeError` whenever `LOCAL_RANK` is absent,
instead of yielding the claimed legacy/bare tuples. -/
theorem c1_launch_detection :
    detectLaunch (envElastic "0" "4") [] = Except.ok (LaunchCtx.mk true (some 4) true) ∧
    detectLaunch (envElastic "1" "4") [] = Except.ok (LaunchCtx.mk true (some 4) false) ∧
    detectLaunch envBare ["--local_rank", "3"] = Except.error PyErr.attributeError ∧
    detectLaunch envBare [] = Except.error PyErr.attributeError :=
  ⟨rfl, rfl, rfl, rfl⟩

/-- C2: launch detection is claimed to have no failure modes, but with no
`LOCAL_RANK` in the environment it raises `AttributeError` (the unparsed
tuple returned by `parse_known_args`), and an unparseable `--local_rank`
value makes argparse raise `SystemExit` rather than falling through. -/
theorem c2_detection_failure :
    detectLaunch envBare [] = Except.error PyErr.attributeError ∧
    detectLaunch envBare ["--local_rank", "foo"] = Except.error PyErr.systemExit :=
  ⟨rfl, rfl⟩

/-- C3 (counterexample): a report with 8 units and exactly one line matching
the host-local pattern is still classified `unknown` when a second
`mlx`-prefixed interface line is present, because the code also requires the
total interface-line count to be one. -/
theorem c3_classification_cex :
    (nvEight cexReport).num_nodes = 8 ∧ countHost cexReport = 1 ∧
      ¬(detect_machine nvEight (ToolResult.output cexReport)).1 = "one_host_ib_dgx1" :=
  ⟨rfl, by decide, by decide⟩

/-- C3 (amended): classification returns the single-relay archetype iff the
parsed intra-node graph has exactly 8 units, exactly one report line matches
the host-local direct-adjacency pattern, and exactly one report line is a
cross-node interface line at all; otherwise the result is `unknown`. -/
theorem c3_classification (nv : List Char → TopoModel) (r : List Char) :
    ((detect_machine nv (ToolResult.output r)).1 = "one_host_ib_dgx1" ↔
      (nv r).num_nodes = 8 ∧ countHost r = 1 ∧ countAny r = 1) ∧
    ((detect_machine nv (ToolResult.output r)).1 = "one_host_ib_dgx1" ∨
      (detect_machine nv (ToolResult.output r)).1 = "unknown") := by
  rw [detect_machine_output nv r]
  by_cases hc : (nv r).num_nodes = 8 ∧ is_one_host_ib_dgx1 r = true
  · rw [if_pos hc]
    exact ⟨⟨fun _ => ⟨hc.1, (is_one_host_iff r).mp hc.2⟩, fun _ => rfl⟩, Or.inl rfl⟩
  · rw [if_neg hc]
    refine ⟨⟨fun h => absurd h (by decide), fun h => ?_⟩, Or.inr rfl⟩
    exact absurd ⟨h.1, (is_one_host_iff r).mpr ⟨h.2.1, h.2.2⟩⟩ hc

/-- C5: plan selection raises the "Unhandled machine type" error naming the
archetype for every archetype other than `one_host_ib_dgx1`, and for that
archetype returns the `DGX1RelayNodePlan` built from the topology model. -/
theorem c5_plan_selection (name : String) (info : Option TopoModel) :
    (name ≠ "one_host_ib_dgx1" →
      select_synthesis_plan (name, info) =
        Except.error ("Unhandled machine type " ++ name ++ ".")) ∧
    select_synthesis_plan ("one_host_ib_dgx1", info) =
      Except.ok (DGX1RelayNodePlan.mk info) := by
  constructor
  · intro h
    simp [select_synthesis_plan, h]
  · simp [select_synthesis_plan]

/-- C5 witness: the `unknown` archetype (and hence every unregistered one)
is rejected with the fatal error naming it. -/
theorem c5_plan_selection_witness :
    select_synthesis_plan ("unknown", (none : Option TopoModel)) =
      Except.error ("Unhandled machine type " ++ "unknown" ++ ".") :=
  (c5_plan_selection "unknown" none).1 (by decide)

/-- C6: if the lock file already exists when a coordinator with subprocess
siblings starts, the publish step fails with the `RuntimeError` naming the
deterministic lock-file path; no state `FsState` with the file written or
the cleanup registered is produced (the only `Except.ok` result carries
them, and the result here is an `Except.error`). -/
theorem c6_lock_exists (st : FsState) (tmpdir : String) (ppid : Nat)
    (env : EnvBundle) (h : st.lockExists = true) :
    coordinatorPublish st (env_file tmpdir ppid) env =
      Except.error ("SCCL: Lock file already exists: " ++ env_file tmpdir ppid) := by
  unfold coordinatorPublish
  rw [h]
  rfl

/-- C6 witness: a concrete stale-lock state is rejected. -/
theorem c6_lock_exists_witness :
    coordinatorPublish (FsState.mk true none false) (env_file "/tmp" 7) [] =
      Except.error ("SCCL: Lock file already exists: " ++ env_file "/tmp" 7) :=
  c6_lock_exists (FsState.mk true none false) "/tmp" 7 [] rfl

/-- C7: machine detection downgrades external-tool failure: both a missing
tool (`FileNotFoundError`) and a failing run (`CalledProcessError`) yield
`('unknown', None)` rather than raising. -/
theorem c7_tool_failure (nv : List Char → TopoModel) :
    detect_machine nv ToolResult.notFound = ("unknown", none) ∧
    detect_machine nv ToolResult.callError = ("unknown", none) :=
  ⟨rfl, rfl⟩

/-- C9: whenever the detection phase completes, a process that is not the
MPI coordinator has local subprocess siblings, so the `assert
has_subprocesses` guarding the sibling wait branch cannot fail. -/
theorem c9_assert_safe (env : String → Option String) (argv : List String)
    (ctx : LaunchCtx) (h : detectLaunch env argv = Except.ok ctx)
    (h2 : ctx.is_mpi_process = false) : ctx.has_subprocesses = true := by
  unfold detectLaunch at h
  split at h
  · split at h
    · exact Except.noConfusion h
    · split at h
      · exact Except.noConfusion h
      · split at h
        · exact Except.noConfusion h
        · have e := Except.ok.inj h
          subst e
          rfl
  · split at h
    · exact Except.noConfusion h
    · exact Except.noConfusion h

/-- C9 witness: a non-coordinator elastic-launch process indeed has
subprocess siblings. -/
theorem c9_assert_safe_witness : (LaunchCtx.mk true (some 2) false).has_subprocesses = true :=
  c9_assert_safe (envElastic "1" "2") [] (LaunchCtx.mk true (some 2) false) rfl rfl

/-- C10: applying the bundle produced by `_autosynth_and_get_env` via
`os.environ.update` changes no variable other than the two bundle keys. -/
theorem c10_env_frame (env : String → Option String) (xml : String)
    (perm : List Nat) (k : String) (h1 : k ≠ "SCCL_XML_FILE")
    (h2 : k ≠ "CUDA_VISIBLE_DEVICES") :
    os_environ_update env (autosynth_env xml perm) k = env k := by
  have b1 : (("SCCL_XML_FILE" : String) == k) = false := by
    rw [beq_eq_false_iff_ne]
    exact Ne.symm h1
  have b2 : (("CUDA_VISIBLE_DEVICES" : String) == k) = false := by
    rw [beq_eq_false_iff_ne]
    exact Ne.symm h2
  simp [os_environ_update, autosynth_env, bundleGet, b1, b2]

/-- C10 witness: a non-bundle variable (`PATH`) is untouched. -/
theorem c10_env_frame_witness :
    os_environ_update envC (autosynth_env "algo.xml" [2, 3]) "PATH" = envC "PATH" :=
  c10_env_frame envC "algo.xml" [2, 3] "PATH" (by decide) (by decide)

/-- The consistency loop succeeds exactly on adjacent-equal lists. -/
lemma checkNamesAux_ok_iff (ns : List String) :
    ∀ k, checkNamesAux k ns = Except.ok () ↔ List.Chain' Eq ns := by
  induction ns with
  | nil => intro k; simp [checkNamesAux]
  | cons a tl ih =>
    intro k
    cases tl with
    | nil => simp [checkNamesAux]
    | cons b rest =>
      by_cases hab : a = b
      · rw [checkNamesAux, if_pos hab, ih (k + 1)]
        simp [List.chain'_cons, hab]
      · rw [checkNamesAux, if_neg hab]
        simp [List.chain'_cons, hab]

/-- Adjacent equality along a list is pairwise equality of all members. -/
lemma chain'_eq_iff_all_eq (ns : List String) :
    List.Chain' Eq ns ↔ ∀ x ∈ ns, ∀ y ∈ ns, x = y := by
  induction ns with
  | nil => simp
  | cons a tl ih =>
    cases tl with
    | nil => simp
    | cons b rest =>
      rw [List.chain'_cons, ih]
      constructor
      · rintro ⟨hab, hall⟩ x hx y hy
        have key : ∀ z ∈ a :: b :: rest, z = b := by
          intro z hz
          rcases List.mem_cons.mp hz with rfl | hz2
          · exact hab
          · exact hall z hz2 b (List.mem_cons_self b rest)
        rw [key x hx, key y hy]
      · intro hall
        exact ⟨hall a (List.mem_cons_self a _) b
                 (List.mem_cons_of_mem a (List.mem_cons_self b _)),
               fun x hx y hy =>
                 hall x (List.mem_cons_of_mem a hx) y (List.mem_cons_of_mem a hy)⟩

/-- At the first adjacent mismatch the loop raises the heterogeneity error
naming that pair (rank offset `k` carried through the recursion). -/
lemma checkNamesAux_error (ns : List String) : ∀ k i : Nat,
    i + 1 < ns.length →
    (∀ j, j < i → ns.getD j "" = ns.getD (j + 1) "") →
    ns.getD i "" ≠ ns.getD (i + 1) "" →
    checkNamesAux k ns =
      Except.error (mismatchMsg (k + i) (ns.getD i "") (ns.getD (i + 1) "")) := by
  induction ns with
  | nil =>
    intro k i h1 _ _
    simp at h1
  | cons a tl ih =>
    intro k i h1 h2 h3
    cases tl with
    | nil =>
      simp at h1
    | cons b rest =>
      cases i with
      | zero =>
        have hab : a ≠ b := by simpa using h3
        rw [checkNamesAux, if_neg hab]
        simp
      | succ i2 =>
        have hab : a = b := by simpa using h2 0 (Nat.succ_pos i2)
        rw [checkNamesAux, if_pos hab]
        have h1b : i2 + 1 < (b :: rest).length := by
          simpa [Nat.succ_lt_succ_iff] using h1
        have h2b : ∀ j, j < i2 →
            (b :: rest).getD j "" = (b :: rest).getD (j + 1) "" := by
          intro j hj
          simpa using h2 (j + 1) (Nat.succ_lt_succ hj)
        have h3b : (b :: rest).getD i2 "" ≠ (b :: rest).getD (i2 + 1) "" := by
          simpa using h3
        have hrec := ih (k + 1) i2 h1b h2b h3b
        rw [hrec]
        have harith : k + 1 + i2 = k + (i2 + 1) := by omega
        rw [harith]
        simp

/-- C4: the coordinator's consistency check succeeds exactly when all
gathered archetype names agree, and on disagreement it raises the
heterogeneity error naming the first adjacent mismatching pair of ranks and
both archetype names. -/
theorem c4_consistency (ns : List String) :
    (checkNames ns = Except.ok () ↔ ∀ x ∈ ns, ∀ y ∈ ns, x = y) ∧
    (∀ i, i + 1 < ns.length →
      (∀ j, j < i → ns.getD j "" = ns.getD (j + 1) "") →
      ns.getD i "" ≠ ns.getD (i + 1) "" →
      checkNames ns =
        Except.error (mismatchMsg i (ns.getD i "") (ns.getD (i + 1) ""))) := by
  constructor
  · rw [checkNames, checkNamesAux_ok_iff ns 0, chain'_eq_iff_all_eq]
  · intro i h1 h2 h3
    have h := checkNamesAux_error ns 0 i h1 h2 h3
    simpa [checkNames] using h

/-- C4 witness: `[A,B,A]` fails naming ranks 0 and 1 with both names. -/
theorem c4_consistency_witness :
    checkNames ["A", "B", "A"] = Except.error (mismatchMsg 0 "A" "B") :=
  (c4_consistency ["A", "B", "A"]).2 0 (by decide)
    (fun j hj => absurd hj (Nat.not_lt_zero j)) (by decide)

/-- Warnings still to be printed by the wait loop when the current poll time
is `t` and the file first appears at poll `n`: one if the `elapsed == 10`
tick lies strictly between them and logging is on. -/
def warnCount (logging : Bool) (t n : Nat) : Nat :=
  if t < 10 ∧ 10 ≤ n ∧ logging = true then 1 else 0

/-- One loop iteration preserves printed-plus-pending warnings. -/
lemma warnCount_step (logging : Bool) (t n w : Nat) (h : t < n) :
    (if (t + 1 == 10) && logging then w + 1 else w) + warnCount logging (t + 1) n =
      w + warnCount logging t n := by
  rcases Bool.eq_false_or_eq_true logging with hl | hl <;> subst hl <;>
    simp [warnCount] <;> split_ifs <;> omega

/-- If the file first appears at poll `n`, the loop with enough fuel stops
at `n` returning the file's bundle, having printed the pending warnings. -/
lemma siblingWait_reaches (fs : Nat → Option EnvBundle) (logging : Bool)
    (n : Nat) (env : EnvBundle) (hn : fs n = some env)
    (hb : ∀ k, k < n → fs k = none) :
    ∀ fuel t w, t ≤ n → n < t + fuel →
      siblingWait fs logging fuel t w = some (n, w + warnCount logging t n, env) := by
  intro fuel
  induction fuel with
  | zero =>
    intro t w h1 h2
    omega
  | succ fuel ih =>
    intro t w h1 h2
    rcases Nat.eq_or_lt_of_le h1 with rfl | hlt
    · rw [siblingWait, hn]
      have hz : warnCount logging t t = 0 := by
        unfold warnCount
        rw [if_neg]
        rintro ⟨ha, hb2, -⟩
        omega
      rw [hz]
      rfl
    · have hft : fs t = none := hb t hlt
      rw [siblingWait, hft]
      rw [ih (t + 1) _ (by omega) (by omega)]
      rw [warnCount_step logging t n w hlt]

/-- If the file never appears, no amount of fuel makes the loop stop. -/
lemma siblingWait_none (fs : Nat → Option EnvBundle) (logging : Bool)
    (h : ∀ k, fs k = none) : ∀ fuel t w, siblingWait fs logging fuel t w = none := by
  intro fuel
  induction fuel with
  | zero => intro t w; rfl
  | succ fuel ih =>
    intro t w
    rw [siblingWait, h t]
    exact ih _ _

/-- The loop stops only by observing the file, and returns its contents. -/
lemma siblingWait_some (fs : Nat → Option EnvBundle) (logging : Bool) :
    ∀ fuel t w p, siblingWait fs logging fuel t w = some p → fs p.1 = some p.2.2 := by
  intro fuel
  induction fuel with
  | zero =>
    intro t w p h
    exact Option.noConfusion h
  | succ fuel ih =>
    intro t w p h
    rw [siblingWait] at h
    cases hft : fs t with
    | some env =>
      rw [hft] at h
      cases h
      exact hft
    | none =>
      rw [hft] at h
      exact ih _ _ _ h

/-- C8: the sibling wait loop polls once per second; it terminates exactly
when the lock file appears (no timeout: with the file never present no fuel
bound suffices, and any successful exit is by observing the file), it prints
the abnormal-wait warning exactly once — after ten fruitless one-second
polls with logging enabled, zero times otherwise — and on appearance it
returns the bundle read from the file. -/
theorem c8_sibling_wait (fs : Nat → Option EnvBundle) (logging : Bool) :
    (∀ n env, fs n = some env → (∀ k, k < n → fs k = none) →
      siblingWait fs logging (n + 1) 0 0 =
        some (n, (if 10 ≤ n ∧ logging = true then 1 else 0), env)) ∧
    ((∀ k, fs k = none) → ∀ fuel, siblingWait fs logging fuel 0 0 = none) ∧
    (∀ fuel t w p, siblingWait fs logging fuel t w = some p → fs p.1 = some p.2.2) := by
  refine ⟨?_, ?_, siblingWait_some fs logging⟩
  · intro n env hn hb
    rw [siblingWait_reaches fs logging n env hn hb (n + 1) 0 0 (Nat.zero_le n) (by omega)]
    have : (0 : Nat) + warnCount logging 0 n =
        if 10 ≤ n ∧ logging = true then 1 else 0 := by
      unfold warnCount
      simp
    rw [this]
  · intro hnone fuel
    exact siblingWait_none fs logging hnone fuel 0 0

/-- C8 witness: with the file appearing at the 12th poll and logging on, the
loop returns at poll 12 having warned exactly once, carrying the bundle. -/
theorem c8_sibling_wait_witness :
    siblingWait fsAppears12 true 13 0 0 =
      some (12, (if 10 ≤ 12 ∧ true = true then 1 else 0),
        [("SCCL_XML_FILE", "algo.xml")]) :=
  (c8_sibling_wait fsAppears12 true).1 12 [("SCCL_XML_FILE", "algo.xml")] rfl
    (fun k hk => by
      simp only [fsAppears12]
      rw [if_neg]
      simp only [beq_iff_eq]
      omega)

end Sccl
